import Mathlib

/-!
# Verification of the NextLavapy websocket client (src/lavapy/websocket.py)

A shallow embedding of the `Websocket` class of `src/lavapy/websocket.py`.
Pure control flow is translated into Lean functions; side effects on
collaborators (player state updates, track building, event-bus dispatch,
socket operations, backoff sleeps) are made explicit as an `Effect` trace;
Python exceptions become an explicit `PyErr` error type threaded through
`Except`.

Modules of the repository that are imported by `websocket.py` but absent
from `src/` (`lavapy/backoff.py`, `lavapy/events.py`, `lavapy/node.py`,
`lavapy/player.py`) are modelled from the spec; each such definition is
marked `Modelled from the spec:` in its doc comment.  Everything else is a
direct translation of the source.
-/

namespace Lavapy

/-- JSON values as they appear in the inbound frames inspected by
`websocket.py`.  The module only ever reads flat string/number fields
(`op`, `guildId`, `type`, `track`, `reason`, ...); nested objects are never
inspected by this code, so they are elided from the value type. -/
inductive JValue where
  | jstr : String → JValue
  | jnum : Int → JValue
  | jbool : Bool → JValue
  | jnull : JValue
deriving DecidableEq, Repr

/-- The parsed form of one JSON text frame: `msg.json()` in the source. -/
abbrev JDict := List (String × JValue)

/-- Python exception kinds that can arise in (or are named by the spec
about) `websocket.py`.  `playerNotFound`, `unknownEventType`,
`unknownOperationCode` and `trackBuildError` are the spec's error taxonomy;
`indexError`, `keyError`, `valueError`, `typeError` and `attributeError`
are the raw Python exceptions the source can actually raise. -/
inductive PyErr where
  | indexError
  | keyError (k : String)
  | valueError
  | typeError
  | attributeError
  | playerNotFound
  | unknownEventType
  | unknownOperationCode
  | trackBuildError
deriving DecidableEq, Repr

/-- Decidable equality for `Except` results, so concrete runs can be
checked by `decide`. -/
instance instDecEqExcept {ε α : Type} [DecidableEq ε] [DecidableEq α] :
    DecidableEq (Except ε α) := fun x y =>
  match x, y with
  | Except.ok a, Except.ok b =>
      if h : a = b then isTrue (by rw [h])
      else isFalse (fun hc => by cases hc; exact h rfl)
  | Except.error e, Except.error f =>
      if h : e = f then isTrue (by rw [h])
      else isFalse (fun hc => by cases hc; exact h rfl)
  | Except.ok _, Except.error _ => isFalse (fun hc => by cases hc)
  | Except.error _, Except.ok _ => isFalse (fun hc => by cases hc)

/-- Python `data[k]` on a dict: the value, or a `KeyError`. -/
def dictGet (data : JDict) (k : String) : Except PyErr JValue :=
  match data.lookup k with
  | some v => Except.ok v
  | none => Except.error (PyErr.keyError k)

/-- The numeric value of a decimal digit character, if it is one. -/
def charDigit (c : Char) : Option Nat :=
  if 48 ≤ c.toNat ∧ c.toNat ≤ 57 then some (c.toNat - 48) else none

/-- The value of a nonempty all-digit character list, read in base 10. -/
def digitsVal (cs : List Char) : Option Nat :=
  match cs with
  | [] => none
  | _ =>
    cs.foldl
      (fun acc c =>
        match acc, charDigit c with
        | some a, some d => some (a * 10 + d)
        | _, _ => none)
      (some 0)

/-- Python `int(·)` on a string: an optional minus sign followed by
decimal digits; anything else is unparseable. -/
def pyStrToInt (s : String) : Option Int :=
  match s.data with
  | '-' :: rest => (digitsVal rest).map (fun n => -(n : Int))
  | cs => (digitsVal cs).map (fun n => (n : Int))

/-- Python `int(v)`: integers pass through, strings are parsed
(`ValueError` if unparseable), booleans coerce to 0/1, `None` raises
`TypeError`. -/
def pyInt : JValue → Except PyErr Int
  | JValue.jstr s =>
      match pyStrToInt s with
      | some n => Except.ok n
      | none => Except.error PyErr.valueError
  | JValue.jnum n => Except.ok n
  | JValue.jbool b => Except.ok (if b then 1 else 0)
  | JValue.jnull => Except.error PyErr.typeError

/-- Modelled from the spec: `lavapy/player.py` is absent from `src/`.
A guild carries the identifier the source reads as `player.guild.id`. -/
structure Guild where
  id : Int
deriving DecidableEq, Repr

/-- Modelled from the spec: `lavapy/player.py` is absent from `src/`.
The only part of a player `websocket.py` touches directly is
`player.guild.id`; `player.updateState(data)` is a collaborator side
effect recorded in the trace. -/
structure Player where
  guild : Guild
deriving DecidableEq, Repr

/-- Modelled from the spec: `lavapy/node.py` (`Node.buildTrack`) is absent
from `src/`.  A track is the opaque result of the async track-builder
collaborator. -/
structure Track where
  raw : JValue
deriving DecidableEq, Repr

/-- Modelled from the spec: `lavapy/backoff.py` is absent from `src/`.
Per the spec, the nth successive delay (before jitter) is
`min(b * 2 ^ (n - 1), m)` for base `b` and cap `m`; `uses` counts delays
already produced by this instance.  A freshly constructed instance has
`uses = 0`, i.e. it is reset to the base delay. -/
structure ExponentialBackoff where
  base : Nat
  maxDelay : Nat
  uses : Nat
deriving DecidableEq, Repr

/-- Modelled from the spec: one use of the backoff policy, returning the
pre-jitter delay and the advanced policy state. -/
def ExponentialBackoff.delay (b : ExponentialBackoff) : Nat × ExponentialBackoff :=
  (min (b.base * 2 ^ b.uses) b.maxDelay, { b with uses := b.uses + 1 })

/-- Payload values passed to the event bus: JSON fields or built tracks. -/
inductive PVal where
  | jv (v : JValue)
  | tr (t : Track)
deriving DecidableEq, Repr

/-- Modelled from the spec: `lavapy/events.py` is absent from `src/`.
The event variants and their owned fields follow the spec's data model:
`TrackStart{guildId, track}`, `TrackEnd{guildId, track, reason}`,
`TrackException{guildId, track, error}`, `TrackStuck{guildId, track,
thresholdMs}`, `WebsocketClosed{guildId, code, reason, byRemote}`. -/
inductive LavapyEvent where
  | trackStart (guildId : Int) (track : Track)
  | trackEnd (guildId : Int) (track : Track) (reason : JValue)
  | trackException (guildId : Int) (track : Track) (error : JValue)
  | trackStuck (guildId : Int) (track : Track) (thresholdMs : JValue)
  | websocketClosed (guildId : Int) (code : JValue) (reason : JValue) (byRemote : JValue)
deriving DecidableEq, Repr

/-- Modelled from the spec: the lowercase tag (`event.event` in the
source) of each event variant, e.g. `"trackend"` for `TrackEnd`. -/
def LavapyEvent.event : LavapyEvent → String
  | LavapyEvent.trackStart _ _ => "trackstart"
  | LavapyEvent.trackEnd _ _ _ => "trackend"
  | LavapyEvent.trackException _ _ _ => "trackexception"
  | LavapyEvent.trackStuck _ _ _ => "trackstuck"
  | LavapyEvent.websocketClosed _ _ _ _ => "websocketclosed"

/-- Modelled from the spec: the dispatch payload (`event.payload` in the
source) is the event variant's fields as a named mapping. -/
def LavapyEvent.payload : LavapyEvent → List (String × PVal)
  | LavapyEvent.trackStart g t =>
      [("guildId", PVal.jv (JValue.jnum g)), ("track", PVal.tr t)]
  | LavapyEvent.trackEnd g t r =>
      [("guildId", PVal.jv (JValue.jnum g)), ("track", PVal.tr t), ("reason", PVal.jv r)]
  | LavapyEvent.trackException g t e =>
      [("guildId", PVal.jv (JValue.jnum g)), ("track", PVal.tr t), ("error", PVal.jv e)]
  | LavapyEvent.trackStuck g t th =>
      [("guildId", PVal.jv (JValue.jnum g)), ("track", PVal.tr t), ("thresholdMs", PVal.jv th)]
  | LavapyEvent.websocketClosed g c r b =>
      [("guildId", PVal.jv (JValue.jnum g)), ("code", PVal.jv c),
       ("reason", PVal.jv r), ("byRemote", PVal.jv b)]

/-- Modelled from the spec: the `TrackStartEvent(player, track)`
constructor used at `websocket.py:176`. -/
def TrackStartEvent (player : Player) (track : Track) : LavapyEvent :=
  LavapyEvent.trackStart player.guild.id track

/-- Modelled from the spec: the `TrackEndEvent(player, track, data)`
constructor used at `websocket.py:178`; the reason field is read from the
envelope. -/
def TrackEndEvent (player : Player) (track : Track) (data : JDict) : LavapyEvent :=
  LavapyEvent.trackEnd player.guild.id track ((data.lookup "reason").getD JValue.jnull)

/-- Modelled from the spec: the `TrackExceptionEvent(player, track, data)`
constructor used at `websocket.py:180`. -/
def TrackExceptionEvent (player : Player) (track : Track) (data : JDict) : LavapyEvent :=
  LavapyEvent.trackException player.guild.id track ((data.lookup "error").getD JValue.jnull)

/-- Modelled from the spec: the `TrackStuckEvent(player, track, data)`
constructor used at `websocket.py:182`. -/
def TrackStuckEvent (player : Player) (track : Track) (data : JDict) : LavapyEvent :=
  LavapyEvent.trackStuck player.guild.id track ((data.lookup "thresholdMs").getD JValue.jnull)

/-- Modelled from the spec: the `WebsocketClosedEvent(player, data)`
constructor used at `websocket.py:172`. -/
def WebsocketClosedEvent (player : Player) (data : JDict) : LavapyEvent :=
  LavapyEvent.websocketClosed player.guild.id
    ((data.lookup "code").getD JValue.jnull)
    ((data.lookup "reason").getD JValue.jnull)
    ((data.lookup "byRemote").getD JValue.jnull)

/-- Observable side effects on collaborators, recorded as a trace. -/
inductive Effect where
  | backoffReset
  | sleep (delay : Nat)
  | buildTrackCall (arg : JValue)
  | updateState (guildId : Int) (data : JDict)
  | dispatch (name : String) (payload : List (String × PVal))
  | wsConnect (url : String) (headers : List (String × String)) (heartbeat : Nat)
  | startListener
deriving DecidableEq, Repr

/-- The environment of collaborators the websocket consults:
`self.node.players` (the player registry), the async track builder
`self.node.buildTrack` (its verdict per encoded track), and the backoff
parameters used by `ExponentialBackoff()`. -/
structure Env where
  players : List Player
  buildTrackFn : JValue → Except PyErr Track
  backoffBase : Nat
  backoffMax : Nat

/-- `Websocket.getPlayer` (websocket.py:76-90): a linear filter over
`self.node.players` followed by `[0]`, which raises `IndexError` when no
player matches the guild id. -/
def getPlayer (players : List Player) (guildID : Int) : Except PyErr Player :=
  match players.filter (fun p => p.guild.id == guildID) with
  | [] => Except.error PyErr.indexError
  | p :: _ => Except.ok p

/-- `Websocket.getEventPayload` (websocket.py:153-182): resolve the player
for `data["guildId"]`, return a `WebsocketClosedEvent` immediately for
that type name, otherwise build the track via the collaborator and branch
over the four track-lifecycle names; an unrecognized name falls off the
end of the function, returning Python `None` (modelled as `Option.none`).
The `name` argument is `data["type"]`, kept as a `JValue` since Python
equality of a non-string against the string literals is simply false.
Returns the result together with the collaborator-call trace. -/
def getEventPayload (env : Env) (name : JValue) (data : JDict) :
    Except PyErr (Option LavapyEvent) × List Effect :=
  match dictGet data "guildId" with
  | Except.error e => (Except.error e, [])
  | Except.ok gv =>
    match pyInt gv with
    | Except.error e => (Except.error e, [])
    | Except.ok gid =>
      match getPlayer env.players gid with
      | Except.error e => (Except.error e, [])
      | Except.ok player =>
        if name == JValue.jstr "WebSocketClosedEvent" then
          (Except.ok (some (WebsocketClosedEvent player data)), [])
        else
          match dictGet data "track" with
          | Except.error e => (Except.error e, [])
          | Except.ok tv =>
            match env.buildTrackFn tv with
            | Except.error e => (Except.error e, [Effect.buildTrackCall tv])
            | Except.ok track =>
              if name == JValue.jstr "TrackStartEvent" then
                (Except.ok (some (TrackStartEvent player track)), [Effect.buildTrackCall tv])
              else if name == JValue.jstr "TrackEndEvent" then
                (Except.ok (some (TrackEndEvent player track data)), [Effect.buildTrackCall tv])
              else if name == JValue.jstr "TrackExceptionEvent" then
                (Except.ok (some (TrackExceptionEvent player track data)), [Effect.buildTrackCall tv])
              else if name == JValue.jstr "TrackStuckEvent" then
                (Except.ok (some (TrackStuckEvent player track data)), [Effect.buildTrackCall tv])
              else
                (Except.ok none, [Effect.buildTrackCall tv])

/-- `Websocket.dispatchEvent` (websocket.py:184-196): a single
`self.node.bot.dispatch(event, **payload)` call, i.e. one dispatch effect
with the payload fields expanded as named arguments. -/
def dispatchEvent (event : String) (payload : List (String × PVal)) : List Effect :=
  [Effect.dispatch event payload]

/-- `Websocket.processListener` (websocket.py:132-151): branch on
`data.get("op")`.  `"playerUpdate"` resolves the player and mutates its
state; `"event"` builds the event via `getEventPayload` and dispatches
`f"lavapy_{event.event}"` with `event.payload` — when `getEventPayload`
returned `None` (unrecognized type name), the attribute access
`event.event` raises `AttributeError`; `"stats"` returns with no action;
any other op falls through and returns `None` silently. -/
def processListener (env : Env) (data : JDict) : Except PyErr Unit × List Effect :=
  if data.lookup "op" == some (JValue.jstr "playerUpdate") then
    match dictGet data "guildId" with
    | Except.error e => (Except.error e, [])
    | Except.ok gv =>
      match pyInt gv with
      | Except.error e => (Except.error e, [])
      | Except.ok gid =>
        match getPlayer env.players gid with
        | Except.error e => (Except.error e, [])
        | Except.ok player => (Except.ok (), [Effect.updateState player.guild.id data])
  else if data.lookup "op" == some (JValue.jstr "event") then
    match dictGet data "type" with
    | Except.error e => (Except.error e, [])
    | Except.ok tv =>
      match getEventPayload env tv data with
      | (Except.error e, tr) => (Except.error e, tr)
      | (Except.ok none, tr) => (Except.error PyErr.attributeError, tr)
      | (Except.ok (some ev), tr) =>
          (Except.ok (), tr ++ dispatchEvent ("lavapy_" ++ ev.event) ev.payload)
  else
    (Except.ok (), [])

/-- One inbound websocket frame, as classified by the listener:
`WSMsgType.TEXT` with its parsed JSON, `WSMsgType.CLOSED`, or any other
message type (which the listener silently ignores). -/
inductive WSMsg where
  | text (data : JDict)
  | closed
  | other
deriving Repr

/-- How a finite run of the listener loop ends: still parked on
`await self.connection.receive()` after consuming all supplied frames, or
crashed because an exception propagated out of the awaited processing
task. -/
inductive ListenerOutcome where
  | awaitingReceive
  | crashed (e : PyErr)
deriving DecidableEq, Repr

/-- The fresh `ExponentialBackoff()` constructed at the top of every
iteration of the listener loop (websocket.py:125). -/
def freshBackoff (env : Env) : ExponentialBackoff :=
  { base := env.backoffBase, maxDelay := env.backoffMax, uses := 0 }

/-- `Websocket.listener` (websocket.py:119-130) run on a finite stream of
frames.  Each iteration first constructs a fresh `ExponentialBackoff()`
(recorded as a `backoffReset` effect) and then awaits a frame.  A TEXT
frame is processed via `await asyncio.create_task(processListener(...))`
— awaited inline, so an exception raised while processing propagates and
terminates the loop.  A CLOSED frame sleeps for one delay of the fresh
backoff and loops back to receive again; nothing else happens on closure.
Any other frame type matches neither branch and the loop continues. -/
def listener (env : Env) : List WSMsg → ListenerOutcome × List Effect
  | [] => (ListenerOutcome.awaitingReceive, [Effect.backoffReset])
  | WSMsg.text d :: rest =>
      match processListener env d with
      | (Except.error e, tr) => (ListenerOutcome.crashed e, Effect.backoffReset :: tr)
      | (Except.ok _, tr) =>
          let r := listener env rest
          (r.1, Effect.backoffReset :: (tr ++ r.2))
  | WSMsg.closed :: rest =>
      let r := listener env rest
      (r.1, Effect.backoffReset :: Effect.sleep ((freshBackoff env).delay).1 :: r.2)
  | WSMsg.other :: rest =>
      let r := listener env rest
      (r.1, Effect.backoffReset :: r.2)

/-- The configuration `connect` reads off `self.node`: host, port,
password and the bot's user id. -/
structure NodeConfig where
  host : String
  port : Nat
  password : String
  botUserId : Nat
deriving Repr

/-- The underlying `ClientWebSocketResponse`: all the websocket code
observes of it is whether it has been closed. -/
structure Conn where
  closed : Bool
deriving DecidableEq, Repr

/-- The mutable attributes of a `Websocket` instance
(websocket.py:60-66): `connected`, `open` (here `openFlag`, since `open`
is reserved in Lean), `connection`, and whether the `_listener` background
task is running. -/
structure WSState where
  connected : Bool
  openFlag : Bool
  connection : Option Conn
  listenerRunning : Bool
deriving DecidableEq, Repr

/-- `Websocket.__init__` (websocket.py:60-66): both flags false, no
connection object, no listener task (a `connect()` task is scheduled but
has not yet run). -/
def initState : WSState :=
  { connected := false, openFlag := false, connection := none, listenerRunning := false }

/-- `Websocket.connect` (websocket.py:92-107), success path: open the
socket to `ws://{host}:{port}` with the `Authorization`, `User-Id` and
`Client-Name` headers and `heartbeat=60`, start the listener task, then
set `connected` and `open`.  A transport failure would raise inside
`ws_connect` before any state change. -/
def connect (node : NodeConfig) (s : WSState) : WSState × List Effect :=
  let headers := [("Authorization", node.password),
                  ("User-Id", toString node.botUserId),
                  ("Client-Name", "Lavapy")]
  let url := "ws://" ++ node.host ++ ":" ++ toString node.port
  ({ s with connection := some { closed := false },
            listenerRunning := true,
            connected := true,
            openFlag := true },
   [Effect.wsConnect url headers 60, Effect.startListener])

/-- `Websocket.disconnect` (websocket.py:109-117): `await
self.connection.close()` — an `AttributeError` when `connection` is still
`None` — then clear both flags.  The `_listener` task is never cancelled. -/
def disconnect (s : WSState) : Except PyErr WSState :=
  match s.connection with
  | none => Except.error PyErr.attributeError
  | some c =>
      Except.ok { s with connection := some { c with closed := true },
                         connected := false,
                         openFlag := false }

/-- `Websocket.isConnected` (websocket.py:71-74). -/
def isConnected (s : WSState) : Bool :=
  s.connected && s.openFlag

/-- Count the dispatch effects in a trace. -/
def countDispatch (tr : List Effect) : Nat :=
  tr.countP (fun e => match e with | Effect.dispatch _ _ => true | _ => false)

/-- Whether a trace contains a player state mutation. -/
def hasUpdateState (tr : List Effect) : Bool :=
  tr.any (fun e => match e with | Effect.updateState _ _ => true | _ => false)

/-- Whether a trace contains a track-builder collaborator call. -/
def hasBuildTrackCall (tr : List Effect) : Bool :=
  tr.any (fun e => match e with | Effect.buildTrackCall _ => true | _ => false)

/-- Whether a trace contains a connect attempt. -/
def hasConnectAttempt (tr : List Effect) : Bool :=
  tr.any (fun e => match e with | Effect.wsConnect _ _ _ => true | _ => false)

/-- Count the backoff sleeps in a trace. -/
def countSleeps (tr : List Effect) : Nat :=
  tr.countP (fun e => match e with | Effect.sleep _ => true | _ => false)

/-- A track builder that always succeeds, wrapping the encoded value. -/
def okBuilder : JValue → Except PyErr Track := fun v => Except.ok { raw := v }

/-- Fixture: a node with no registered players, backoff base 5 / cap 100. -/
def envNoPlayers : Env :=
  { players := [], buildTrackFn := okBuilder, backoffBase := 5, backoffMax := 100 }

/-- Fixture: a node with one player registered for guild 1. -/
def env1 : Env :=
  { players := [{ guild := { id := 1 } }], buildTrackFn := okBuilder,
    backoffBase := 5, backoffMax := 100 }

/-- Fixture: a node with one player registered for guild 123. -/
def env123 : Env :=
  { players := [{ guild := { id := 123 } }], buildTrackFn := okBuilder,
    backoffBase := 5, backoffMax := 100 }

/-- Fixture: a `playerUpdate` envelope for guild 123. -/
def dataPU : JDict :=
  [("op", JValue.jstr "playerUpdate"), ("guildId", JValue.jstr "123"),
   ("state", JValue.jnull)]

/-- Fixture: an `event` envelope with an unrecognized event-type name. -/
def dataBogus : JDict :=
  [("op", JValue.jstr "event"), ("type", JValue.jstr "BogusEvent"),
   ("guildId", JValue.jstr "1"), ("track", JValue.jstr "enc")]

/-- Fixture: a `TrackEndEvent` envelope for guild 123. -/
def dataTE : JDict :=
  [("op", JValue.jstr "event"), ("type", JValue.jstr "TrackEndEvent"),
   ("guildId", JValue.jstr "123"), ("track", JValue.jstr "enc"),
   ("reason", JValue.jstr "FINISHED")]

/-- Fixture: a `WebSocketClosedEvent` envelope for guild 123. -/
def dataWSC : JDict :=
  [("op", JValue.jstr "event"), ("type", JValue.jstr "WebSocketClosedEvent"),
   ("guildId", JValue.jstr "123"), ("code", JValue.jnum 4000),
   ("reason", JValue.jstr "x"), ("byRemote", JValue.jbool true)]

/-- Fixture: a node configuration. -/
def node0 : NodeConfig :=
  { host := "localhost", port := 2333, password := "pass", botUserId := 42 }

end Lavapy

open Lavapy

/-- `getEventPayload` never emits a dispatch effect itself: the only
collaborator it calls is the track builder. -/
theorem getEventPayload_no_dispatch (env : Env) (name : JValue) (data : JDict) :
    countDispatch (getEventPayload env name data).2 = 0 := by
  unfold getEventPayload
  split <;> try rfl
  split <;> try rfl
  split <;> try rfl
  split
  · rfl
  · split <;> try rfl
    split <;> try rfl
    split <;> try rfl
    split <;> try rfl
    split <;> try rfl
    split <;> rfl

/-- C1 counterexample: a `playerUpdate` envelope whose guild id (123)
matches no registered player makes processing fail with `IndexError`
(the `[0]` on an empty filter result), not with a `PlayerNotFound`
error, so the claim as stated is false on the code. -/
theorem C1_counterexample :
    processListener envNoPlayers dataPU = (Except.error PyErr.indexError, []) ∧
    (Except.error PyErr.indexError : Except PyErr Unit) ≠
      Except.error PyErr.playerNotFound := by
  constructor
  · decide
  · decide

/-- C1 (amended): for every `playerUpdate` envelope whose guild identifier
matches no registered player, processing fails with an `IndexError` (the
empty lookup crashes in `getPlayer`), and no player state mutation is
performed. -/
theorem C1_amended_playerUpdate_unknown_guild (env : Env) (data : JDict)
    (gv : JValue) (g : Int)
    (hop : data.lookup "op" = some (JValue.jstr "playerUpdate"))
    (hgv : dictGet data "guildId" = Except.ok gv)
    (hg : pyInt gv = Except.ok g)
    (hnone : env.players.filter (fun p => p.guild.id == g) = []) :
    processListener env data = (Except.error PyErr.indexError, []) := by
  unfold processListener
  rw [hop]
  rw [if_pos (show ((some (JValue.jstr "playerUpdate") ==
        some (JValue.jstr "playerUpdate")) = true) from by decide)]
  simp only [hgv, hg]
  unfold getPlayer
  simp only [hnone]

/-- C1 witness: the amended statement at the concrete envelope `dataPU`
(guild 123) against a node with no registered players. -/
theorem C1_witness :
    dataPU.lookup "op" = some (JValue.jstr "playerUpdate") ∧
    envNoPlayers.players.filter (fun p => p.guild.id == (123 : Int)) = [] ∧
    processListener envNoPlayers dataPU = (Except.error PyErr.indexError, []) :=
  ⟨by decide, by decide,
   C1_amended_playerUpdate_unknown_guild envNoPlayers dataPU (JValue.jstr "123") 123
     (by decide) (by decide) (by decide) (by decide)⟩

/-- C2 counterexample: a TEXT frame whose processing fails (a
`playerUpdate` for an unregistered guild) terminates the Listener loop
with that error: the following CLOSED frame is never consumed (the trace
holds no sleep), so per-message failures do end the Listener, contrary to
the claim. -/
theorem C2_counterexample :
    listener envNoPlayers [WSMsg.text dataPU, WSMsg.closed] =
      (ListenerOutcome.crashed PyErr.indexError, [Effect.backoffReset]) ∧
    ListenerOutcome.crashed PyErr.indexError ≠ ListenerOutcome.awaitingReceive := by
  constructor
  · decide
  · decide

/-- C2 (amended): a failure raised while processing a TEXT frame
propagates out of the awaited processing task and terminates the Listener
loop with that error; the remaining frames are never consumed. -/
theorem C2_amended_processing_failure_kills_listener (env : Env) (data : JDict)
    (e : PyErr) (tr : List Effect) (rest : List WSMsg)
    (h : processListener env data = (Except.error e, tr)) :
    listener env (WSMsg.text data :: rest) =
      (ListenerOutcome.crashed e, Effect.backoffReset :: tr) := by
  simp only [listener, h]

/-- C2 witness: the amended statement at the concrete crashing frame
`dataPU` with a further CLOSED frame pending. -/
theorem C2_witness :
    processListener envNoPlayers dataPU = (Except.error PyErr.indexError, []) ∧
    listener envNoPlayers [WSMsg.text dataPU, WSMsg.closed] =
      (ListenerOutcome.crashed PyErr.indexError, [Effect.backoffReset]) :=
  ⟨by decide,
   C2_amended_processing_failure_kills_listener envNoPlayers dataPU
     PyErr.indexError [] [WSMsg.closed] (by decide)⟩

/-- C3 (code bug): the source constructs a fresh `ExponentialBackoff()` at
the top of every listener iteration (websocket.py:125), so on two
consecutive remote closures the delay is reset to the base (5) before
each use and no successful connection is ever involved: the trace for the
frame stream `[CLOSED, CLOSED]` shows a reset before every receive and
two base-delay sleeps, with no connect attempt anywhere. -/
theorem C3_code_bug_backoff_reset_every_iteration :
    listener envNoPlayers [WSMsg.closed, WSMsg.closed] =
      (ListenerOutcome.awaitingReceive,
       [Effect.backoffReset, Effect.sleep 5, Effect.backoffReset, Effect.sleep 5,
        Effect.backoffReset]) ∧
    hasConnectAttempt (listener envNoPlayers [WSMsg.closed, WSMsg.closed]).2 = false := by
  constructor
  · decide
  · decide

/-- C4 (code bug): on a single CLOSED frame the listener computes exactly
one backoff delay (the base, 5 — nonzero), but then neither attempts a
reconnect (no connect call exists anywhere in the listener) nor surfaces
a terminal closure: it loops straight back to `receive()` on the
already-closed connection. -/
theorem C4_code_bug_closed_frame_rereceives :
    listener envNoPlayers [WSMsg.closed] =
      (ListenerOutcome.awaitingReceive,
       [Effect.backoffReset, Effect.sleep 5, Effect.backoffReset]) ∧
    countSleeps (listener envNoPlayers [WSMsg.closed]).2 = 1 ∧
    hasConnectAttempt (listener envNoPlayers [WSMsg.closed]).2 = false := by
  refine ⟨by decide, by decide, by decide⟩

/-- C5 counterexample: an `event` envelope with the unrecognized type name
`"BogusEvent"` (player and track both resolvable) makes `getEventPayload`
fall off the end of the function and return `None` — not an
`UnknownEventType` error — and the subsequent `event.event` attribute
access in `processListener` raises `AttributeError`. -/
theorem C5_counterexample :
    (getEventPayload env1 (JValue.jstr "BogusEvent") dataBogus).1 = Except.ok none ∧
    (getEventPayload env1 (JValue.jstr "BogusEvent") dataBogus).1 ≠
      Except.error PyErr.unknownEventType ∧
    processListener env1 dataBogus =
      (Except.error PyErr.attributeError, [Effect.buildTrackCall (JValue.jstr "enc")]) := by
  refine ⟨by decide, by decide, by decide⟩

/-- C5 (amended): for every `event` envelope whose event-type name is not
one of the five recognized names (player and track both resolvable),
`getEventPayload` returns `None` after having invoked the track builder,
and processing then fails with an `AttributeError` at the `event.event`
access — there is no `UnknownEventType` error in the code. -/
theorem C5_amended_unrecognized_event_type (env : Env) (data : JDict)
    (name gv tv : JValue) (g : Int) (player : Player) (track : Track)
    (hop : data.lookup "op" = some (JValue.jstr "event"))
    (hty : dictGet data "type" = Except.ok name)
    (hgv : dictGet data "guildId" = Except.ok gv)
    (hg : pyInt gv = Except.ok g)
    (hp : getPlayer env.players g = Except.ok player)
    (htv : dictGet data "track" = Except.ok tv)
    (htr : env.buildTrackFn tv = Except.ok track)
    (h1 : name ≠ JValue.jstr "WebSocketClosedEvent")
    (h2 : name ≠ JValue.jstr "TrackStartEvent")
    (h3 : name ≠ JValue.jstr "TrackEndEvent")
    (h4 : name ≠ JValue.jstr "TrackExceptionEvent")
    (h5 : name ≠ JValue.jstr "TrackStuckEvent") :
    getEventPayload env name data = (Except.ok none, [Effect.buildTrackCall tv]) ∧
    processListener env data =
      (Except.error PyErr.attributeError, [Effect.buildTrackCall tv]) := by
  have hev : getEventPayload env name data =
      (Except.ok none, [Effect.buildTrackCall tv]) := by
    unfold getEventPayload
    simp only [hgv, hg, hp, htv, htr]
    simp [h1, h2, h3, h4, h5]
  refine ⟨hev, ?_⟩
  unfold processListener
  rw [hop]
  rw [if_neg (show ¬((some (JValue.jstr "event") ==
        some (JValue.jstr "playerUpdate")) = true) from by decide)]
  rw [if_pos (show ((some (JValue.jstr "event") ==
        some (JValue.jstr "event")) = true) from by decide)]
  simp only [hty, hev]

/-- C5 witness: the amended statement at the concrete envelope
`dataBogus` (type name `"BogusEvent"`, guild 1 resolvable, track
buildable). -/
theorem C5_witness :
    (JValue.jstr "BogusEvent" : JValue) ≠ JValue.jstr "WebSocketClosedEvent" ∧
    getEventPayload env1 (JValue.jstr "BogusEvent") dataBogus =
      (Except.ok none, [Effect.buildTrackCall (JValue.jstr "enc")]) ∧
    processListener env1 dataBogus =
      (Except.error PyErr.attributeError, [Effect.buildTrackCall (JValue.jstr "enc")]) :=
  ⟨by decide,
   (C5_amended_unrecognized_event_type env1 dataBogus (JValue.jstr "BogusEvent")
     (JValue.jstr "1") (JValue.jstr "enc") 1 { guild := { id := 1 } }
     { raw := JValue.jstr "enc" } (by decide) (by decide) (by decide) (by decide)
     (by decide) (by decide) (by decide) (by decide) (by decide) (by decide)
     (by decide) (by decide)).1,
   (C5_amended_unrecognized_event_type env1 dataBogus (JValue.jstr "BogusEvent")
     (JValue.jstr "1") (JValue.jstr "enc") 1 { guild := { id := 1 } }
     { raw := JValue.jstr "enc" } (by decide) (by decide) (by decide) (by decide)
     (by decide) (by decide) (by decide) (by decide) (by decide) (by decide)
     (by decide) (by decide)).2⟩

/-- C6 counterexample: starting from a freshly connected instance,
`disconnect()` returns successfully while the listener background task is
still running — the source never cancels `self._listener`. -/
theorem C6_counterexample :
    disconnect (connect node0 initState).1 =
      Except.ok { connected := false, openFlag := false,
                  connection := some { closed := true }, listenerRunning := true } ∧
    ({ connected := false, openFlag := false, connection := some { closed := true },
       listenerRunning := true } : WSState).listenerRunning = true := by
  refine ⟨by decide, by decide⟩

/-- C6 (amended): `disconnect()` closes the socket and clears both flags
but does not touch the listener task: whatever its running state was
before the call, it is unchanged after `disconnect()` returns. -/
theorem C6_amended_disconnect_leaves_listener_state (s : WSState) (c : Conn)
    (hc : s.connection = some c) :
    disconnect s = Except.ok { s with connection := some { c with closed := true },
                                      connected := false, openFlag := false } ∧
    ({ s with connection := some { c with closed := true },
              connected := false, openFlag := false } : WSState).listenerRunning =
      s.listenerRunning := by
  constructor
  · unfold disconnect
    rw [hc]
  · rfl

/-- C6 witness: the amended statement at a connected state whose listener
task is running: it is still running after `disconnect()`. -/
theorem C6_witness :
    ({ connected := true, openFlag := true, connection := some { closed := false },
       listenerRunning := true } : WSState).connection = some { closed := false } ∧
    disconnect { connected := true, openFlag := true,
                 connection := some { closed := false }, listenerRunning := true } =
      Except.ok { connected := false, openFlag := false,
                  connection := some { closed := true }, listenerRunning := true } :=
  ⟨rfl,
   (C6_amended_disconnect_leaves_listener_state
     { connected := true, openFlag := true, connection := some { closed := false },
       listenerRunning := true } { closed := false } rfl).1⟩

/-- C7: for every successfully built event, the event bus's dispatch is
called exactly once, with the event name `"lavapy_"` concatenated with
the event's lowercase tag and the payload fields expanded as named
arguments. -/
theorem C7_dispatch_exactly_once (env : Env) (data : JDict) (name : JValue)
    (ev : LavapyEvent) (tr : List Effect)
    (hop : data.lookup "op" = some (JValue.jstr "event"))
    (hty : dictGet data "type" = Except.ok name)
    (hev : getEventPayload env name data = (Except.ok (some ev), tr)) :
    processListener env data =
      (Except.ok (), tr ++ [Effect.dispatch ("lavapy_" ++ ev.event) ev.payload]) ∧
    countDispatch (processListener env data).2 = 1 := by
  have hmain : processListener env data =
      (Except.ok (), tr ++ [Effect.dispatch ("lavapy_" ++ ev.event) ev.payload]) := by
    unfold processListener
    rw [hop]
    rw [if_neg (show ¬((some (JValue.jstr "event") ==
          some (JValue.jstr "playerUpdate")) = true) from by decide)]
    rw [if_pos (show ((some (JValue.jstr "event") ==
          some (JValue.jstr "event")) = true) from by decide)]
    simp only [hty, hev, dispatchEvent]
  have h0 : countDispatch tr = 0 := by
    have h := getEventPayload_no_dispatch env name data
    rw [hev] at h
    exact h
  refine ⟨hmain, ?_⟩
  rw [hmain]
  unfold countDispatch at h0 ⊢
  rw [List.countP_append, h0]
  rfl

/-- C7 witness: a `TrackEndEvent` envelope for guild 123 produces exactly
one dispatch, named `"lavapy_trackend"`, whose payload carries
`guildId = 123` and the end reason. -/
theorem C7_witness :
    getEventPayload env123 (JValue.jstr "TrackEndEvent") dataTE =
      (Except.ok (some (LavapyEvent.trackEnd 123 { raw := JValue.jstr "enc" }
        (JValue.jstr "FINISHED"))), [Effect.buildTrackCall (JValue.jstr "enc")]) ∧
    processListener env123 dataTE =
      (Except.ok (),
       [Effect.buildTrackCall (JValue.jstr "enc"),
        Effect.dispatch "lavapy_trackend"
          [("guildId", PVal.jv (JValue.jnum 123)),
           ("track", PVal.tr { raw := JValue.jstr "enc" }),
           ("reason", PVal.jv (JValue.jstr "FINISHED"))]]) ∧
    countDispatch (processListener env123 dataTE).2 = 1 := by
  have h := C7_dispatch_exactly_once env123 dataTE (JValue.jstr "TrackEndEvent")
    (LavapyEvent.trackEnd 123 { raw := JValue.jstr "enc" } (JValue.jstr "FINISHED"))
    [Effect.buildTrackCall (JValue.jstr "enc")] (by decide) (by decide) (by decide)
  exact ⟨by decide, h.1.trans (by decide), h.2⟩

/-- C8: `connect()` opens a websocket to `ws://{host}:{port}` with the
`Authorization` (node password), `User-Id` (bot identity) and
`Client-Name` (`"Lavapy"`) handshake headers and `heartbeat = 60`, and on
success leaves the instance in the Open state with the listener task
started. -/
theorem C8_connect_headers_heartbeat_open (node : NodeConfig) (s : WSState) :
    connect node s =
      ({ s with connection := some { closed := false }, listenerRunning := true,
                connected := true, openFlag := true },
       [Effect.wsConnect ("ws://" ++ node.host ++ ":" ++ toString node.port)
          [("Authorization", node.password), ("User-Id", toString node.botUserId),
           ("Client-Name", "Lavapy")] 60,
        Effect.startListener]) ∧
    isConnected (connect node s).1 = true ∧
    (connect node s).1.listenerRunning = true := by
  exact ⟨rfl, rfl, rfl⟩

/-- C9 counterexample: a freshly initialized instance is in the
Disconnected state (`connection` is still `None`), yet `disconnect()` on
it raises `AttributeError` (`None.close()`) instead of being a no-op. -/
theorem C9_counterexample :
    isConnected initState = false ∧
    initState.connected = false ∧
    disconnect initState = Except.error PyErr.attributeError := by
  refine ⟨by decide, by decide, by decide⟩

/-- C9 (amended): `disconnect()` is a no-op only on an already-disconnected
instance that holds a (closed) connection object from an earlier
connection: there it succeeds and leaves the state unchanged; on a
never-connected instance it raises instead. -/
theorem C9_amended_disconnect_idempotent_after_connection (s : WSState) (c : Conn)
    (hc : s.connection = some c) (hcl : c.closed = true)
    (hcon : s.connected = false) (hop : s.openFlag = false) :
    disconnect s = Except.ok s := by
  cases s with
  | mk connected openFlag connection listenerRunning =>
    cases c with
    | mk closed =>
      dsimp only at hc hcl hcon hop
      subst hcl
      subst hcon
      subst hop
      subst hc
      rfl

/-- C9 witness: the amended statement at the state reached after a
connect followed by a disconnect: a second `disconnect()` succeeds and
changes nothing. -/
theorem C9_witness :
    disconnect { connected := false, openFlag := false,
                 connection := some { closed := true }, listenerRunning := true } =
      Except.ok { connected := false, openFlag := false,
                  connection := some { closed := true }, listenerRunning := true } :=
  C9_amended_disconnect_idempotent_after_connection
    { connected := false, openFlag := false, connection := some { closed := true },
      listenerRunning := true } { closed := true } rfl rfl rfl rfl

/-- C10: the player is resolved before the event-type name is inspected —
with no resolvable player, `getEventPayload` fails with the lookup's
`IndexError` for every name, `WebSocketClosedEvent` included — and for
every name other than `WebSocketClosedEvent` (recognized or not, with the
player resolvable and a track field present) the async track-builder
collaborator is invoked. -/
theorem C10_player_resolved_first_and_track_built_unconditionally :
    (∀ (env : Env) (name : JValue) (data : JDict) (gv : JValue) (g : Int),
      dictGet data "guildId" = Except.ok gv →
      pyInt gv = Except.ok g →
      env.players.filter (fun p => p.guild.id == g) = [] →
      getEventPayload env name data = (Except.error PyErr.indexError, [])) ∧
    (∀ (env : Env) (name : JValue) (data : JDict) (gv tv : JValue) (g : Int)
       (player : Player),
      dictGet data "guildId" = Except.ok gv →
      pyInt gv = Except.ok g →
      getPlayer env.players g = Except.ok player →
      name ≠ JValue.jstr "WebSocketClosedEvent" →
      dictGet data "track" = Except.ok tv →
      hasBuildTrackCall (getEventPayload env name data).2 = true) := by
  constructor
  · intro env name data gv g hgv hg hnone
    unfold getEventPayload
    simp only [hgv, hg]
    unfold getPlayer
    simp only [hnone]
  · intro env name data gv tv g player hgv hg hp hne htv
    unfold getEventPayload
    simp only [hgv, hg, hp, htv]
    rw [if_neg (show ¬((name == JValue.jstr "WebSocketClosedEvent") = true) from by
      simp [hne])]
    cases htr : env.buildTrackFn tv with
    | error e => simp [htr, hasBuildTrackCall]
    | ok track =>
      simp only [htr]
      split_ifs <;> simp [hasBuildTrackCall]

/-- C10 witness: with no players even a `WebSocketClosedEvent` envelope
fails on the player lookup, and with a resolvable player the track
builder is invoked even for the unrecognized name `"BogusEvent"`. -/
theorem C10_witness :
    getEventPayload envNoPlayers (JValue.jstr "WebSocketClosedEvent") dataWSC =
      (Except.error PyErr.indexError, []) ∧
    hasBuildTrackCall (getEventPayload env1 (JValue.jstr "BogusEvent") dataBogus).2 =
      true :=
  ⟨C10_player_resolved_first_and_track_built_unconditionally.1 envNoPlayers
     (JValue.jstr "WebSocketClosedEvent") dataWSC (JValue.jstr "123") 123
     (by decide) (by decide) (by decide),
   C10_player_resolved_first_and_track_built_unconditionally.2 env1
     (JValue.jstr "BogusEvent") dataBogus (JValue.jstr "1") (JValue.jstr "enc") 1
     { guild := { id := 1 } } (by decide) (by decide) (by decide) (by decide)
     (by decide)⟩
